import Mathlib

/-!
Verification of the BeeCalc notebook-calculator core and its two front-end
per-line loops.

The repository ships two front ends: the Qt one (`src/beecalc.py`, whose
`MainWindow.processNotepad` runs the per-line evaluation loop) and the Kivy
one (`src/beecalcgui.py`, whose `BeeCalc.on_text` runs the analogous loop).
Both delegate a single line's preprocessing, parsing and evaluation to the
`beenotepad` module (`BeeNotepad.append` / `BeeNotepad.clear`), which is not
part of the repository sources; wherever a definition stands in for that
missing module it is marked `Modelled from the spec:` and follows the
specification text (spec.md sections 3 to 7).

Numbers are modelled as exact rationals (the executable type `Q` below,
kept in lowest terms so that structural equality is semantic equality)
standing in for Python ints and floats; complex numbers carry rational real
and imaginary parts; quantities from the external unit library carry a
rational magnitude and a unit name.
-/

namespace BeeCalc

/-! ### Exact rational numbers

An executable rational type: every operation normalizes through `Nat.gcd`,
so values are always in lowest terms with a positive denominator and
structural (decidable) equality coincides with numeric equality. -/

structure Q where
  n : Int
  d : Nat
deriving DecidableEq

instance (k : Nat) : OfNat Q k := ⟨⟨Int.ofNat k, 1⟩⟩

def Q.norm (a : Int) (b : Nat) : Q :=
  let g := Nat.gcd a.natAbs b
  if g = 0 then ⟨0, 1⟩ else ⟨a / (g : Int), b / g⟩

def Q.add (x y : Q) : Q := Q.norm (x.n * y.d + y.n * x.d) (x.d * y.d)

def Q.neg (x : Q) : Q := ⟨-x.n, x.d⟩

def Q.sub (x y : Q) : Q := Q.add x (Q.neg y)

def Q.mul (x y : Q) : Q := Q.norm (x.n * y.n) (x.d * y.d)

/-- Multiplicative inverse; the inverse of zero is zero (callers guard
division by zero separately). -/
def Q.inv (x : Q) : Q :=
  if x.n = 0 then ⟨0, 1⟩
  else if x.n < 0 then ⟨-(x.d : Int), x.n.natAbs⟩ else ⟨(x.d : Int), x.n.natAbs⟩

def Q.div (x y : Q) : Q := Q.mul x (Q.inv y)

def Q.abs (x : Q) : Q := ⟨|x.n|, x.d⟩

def Q.isZero (x : Q) : Bool := x.n = 0

def Q.ble (x y : Q) : Bool := x.n * (y.d : Int) ≤ y.n * (x.d : Int)

def Q.npow (x : Q) : Nat → Q
  | 0 => ⟨1, 1⟩
  | k + 1 => Q.mul x (Q.npow x k)

/-- Integer powers (negative exponents through the inverse). -/
def Q.zpow (x : Q) (e : Int) : Q :=
  if 0 ≤ e then Q.npow x e.toNat else Q.inv (Q.npow x (-e).toNat)

def Q.floor (x : Q) : Int := Int.fdiv x.n (x.d : Int)

/-- Fuel-driven Newton iteration for the integer square root. -/
def isqrtGo (n : Nat) : Nat → Nat → Nat
  | 0, x => x
  | fuel + 1, x =>
      if x = 0 then 0
      else
        let y := (x + n / x) / 2
        if y < x then isqrtGo n fuel y else x

def isqrt (n : Nat) : Nat := if n ≤ 1 then n else isqrtGo n 400 n

/-! ### Values and environment -/

/-- Runtime values of the calculator core.  Modelled from the spec (section 3,
Value): numbers, complex numbers, and dimensioned quantities from the
external Unit Library (magnitude plus unit name). -/
inductive Value where
  | num (q : Q)
  | cplx (re im : Q)
  | quantity (mag : Q) (u : String)
deriving DecidableEq

/-- The Variable Environment (spec section 3): identifier to last-bound value. -/
abbrev Env := List (String × Value)

def lookupEnv : Env → String → Option Value
  | [], _ => none
  | (k, v) :: rest, x => if k = x then some v else lookupEnv rest x

def insertEnv : Env → String → Value → Env
  | [], x, v => [(x, v)]
  | (k, w) :: rest, x, v =>
      if k = x then (k, v) :: rest else (k, w) :: insertEnv rest x v

/-- Python truthiness of a result value, as used by `if out:` in both
front-end loops (src/beecalc.py line 894, src/beecalcgui.py line 128). -/
def Value.truthy : Value → Bool
  | .num q => !q.isZero
  | .cplx a b => !(a.isZero && b.isZero)
  | .quantity m _ => !m.isZero

def Value.isCplx : Value → Bool
  | .cplx _ _ => true
  | _ => false

/-- Absolute-tolerance zero test mirroring `math.isclose(out, 0, abs_tol=1e-15)`
on a non-complex value (for values this small the relative-tolerance branch
of isclose never dominates, so the test reduces to the absolute one). -/
def Value.closeZero : Value → Bool
  | .num q => Q.ble (Q.abs q) (Q.norm 1 (10 ^ 15))
  | .cplx _ _ => false
  | .quantity m _ => Q.ble (Q.abs m) (Q.norm 1 (10 ^ 15))

/-- The value `float(out)` would produce, when it would succeed
(src/beecalc.py line 889). -/
def Value.floatOf : Value → Option Q
  | .num q => some q
  | .cplx _ _ => none
  | .quantity m _ => some m

/-- Error taxonomy of the core (spec section 7). -/
inductive BErr where
  | synErr (unclosed : Bool)
  | badOp (op : String)
  | unknownFunc (f : String)
  | unknownIdent (x : String)
  | unavailUnit (u : String)
  | inconsistentUnits
  | divByZero
  | unsupportedOp
deriving DecidableEq

instance {ε α : Type} [DecidableEq ε] [DecidableEq α] : DecidableEq (Except ε α) := fun x y =>
  match x, y with
  | .ok a, .ok b =>
      if h : a = b then .isTrue (by rw [h]) else .isFalse (by simp [h])
  | .error a, .error b =>
      if h : a = b then .isTrue (by rw [h]) else .isFalse (by simp [h])
  | .ok _, .error _ => .isFalse (by simp)
  | .error _, .ok _ => .isFalse (by simp)

/-- Modelled from the spec: the fixed Constants table (section 3) of the
missing beenotepad core, with exact rationals standing in for the
floating-point constant values. -/
def constantsTable : String → Option Value
  | "pi" => some (.num (Q.norm 3141592653589793 (10 ^ 15)))
  | "e" => some (.num (Q.norm 2718281828459045 (10 ^ 15)))
  | "tau" => some (.num (Q.norm 6283185307179586 (10 ^ 15)))
  | "phi" => some (.num (Q.norm 1618033988749895 (10 ^ 15)))
  | _ => none

/-- Modelled from the spec: a fragment of the external Unit Library table,
as (unit name, dimension tag, scale factor to the dimension base unit). -/
def unitTable : List (String × String × Q) :=
  [("mm", "L", 1), ("cm", "L", 10), ("m", "L", 1000), ("km", "L", 1000000),
   ("in", "L", Q.norm 127 5), ("ft", "L", Q.norm 1524 5),
   ("mi", "L", Q.norm 8046720 5),
   ("g", "M", 1), ("kg", "M", 1000), ("lb", "M", Q.norm 45359237 (10 ^ 5)),
   ("deg", "A", 1), ("rad", "A", Q.norm 572957795130823 (10 ^ 13)),
   ("s", "T", 1), ("min", "T", 60), ("hr", "T", 3600)]

def unitInfo (u : String) : Option (String × Q) :=
  (unitTable.find? (fun p => p.1 == u)).map Prod.snd

def isUnit (u : String) : Bool := (unitInfo u).isSome

/-- Modelled from the spec: square root from the external Math Library,
exact on perfect squares and a fixed-precision approximation otherwise
(intended for nonnegative arguments). -/
def ratSqrt (q : Q) : Q :=
  if q.d = 1 ∧ (isqrt q.n.toNat) * (isqrt q.n.toNat) = q.n.toNat then
    ⟨(isqrt q.n.toNat : Int), 1⟩
  else
    Q.norm (isqrt ((q.n.toNat * 10 ^ 30) / q.d) : Int) (10 ^ 15)

/-! ### Preprocessor (Modelled from the spec, section 4.1)

The seven ordered text-rewriting steps of the Preprocessor of the missing
beenotepad module, implemented over character lists. -/

def isIdentStart (c : Char) : Bool := c.isAlpha || c = '_'

def isIdentChar (c : Char) : Bool := c.isAlpha || c.isDigit || c = '_'

def spanIdent : List Char → List Char × List Char
  | [] => ([], [])
  | c :: cs =>
      if isIdentChar c then
        let (r, rest) := spanIdent cs
        (c :: r, rest)
      else ([], c :: cs)

def spanDigits : List Char → List Char × List Char
  | [] => ([], [])
  | c :: cs =>
      if c.isDigit then
        let (r, rest) := spanDigits cs
        (c :: r, rest)
      else ([], c :: cs)

def spanAlpha : List Char → List Char × List Char
  | [] => ([], [])
  | c :: cs =>
      if c.isAlpha then
        let (r, rest) := spanAlpha cs
        (c :: r, rest)
      else ([], c :: cs)

/-- A numeric literal run: digits, optionally a dot and more digits. -/
def spanNumber (cs : List Char) : List Char × List Char :=
  let (d1, r1) := spanDigits cs
  match r1 with
  | '.' :: r2 =>
      let (d2, r3) := spanDigits r2
      (d1 ++ '.' :: d2, r3)
  | _ => (d1, r1)

/-- Preprocessor step 1 (Modelled from the spec 4.1.1): truncate the line at
the first comment character. -/
def stripComment (cs : List Char) : List Char := cs.takeWhile (fun c => c != '#')

/-- Preprocessor step 2 (Modelled from the spec 4.1.2): replace every
last-result reference with the identifier ans. -/
def atRepl : List Char → List Char
  | [] => []
  | c :: cs => (if c = '@' then ['a', 'n', 's'] else [c]) ++ atRepl cs

/-- After a percent sign: optional spaces, the word of, and a word boundary. -/
def pctTail (cs : List Char) : Option (List Char) :=
  match cs.dropWhile (fun c => c == ' ') with
  | 'o' :: 'f' :: rest =>
      match rest with
      | [] => some []
      | c :: _ => if isIdentChar c then none else some rest
  | _ => none

def pctSplit : List Char → List Char → Option (List Char × List Char)
  | _, [] => none
  | acc, c :: rest =>
      if c = '%' then
        match pctTail rest with
        | some tail => some (acc.reverse, tail)
        | none => pctSplit (c :: acc) rest
      else pctSplit (c :: acc) rest

/-- Preprocessor step 3 (Modelled from the spec 4.1.3): rewrite the first
percent-of phrase, splitting at the match, as a division by 100 and a
multiplication. -/
def pctOf (cs : List Char) : List Char :=
  match pctSplit [] cs with
  | some (left, tail) =>
      ('(' :: '(' :: left) ++ (')' :: '/' :: '1' :: '0' :: '0' :: ')' :: '*' :: tail)
  | none => cs

/-- Render a numeric value as substitution text (Modelled from the spec
4.1.4); integral values render as plain integers. -/
def renderNum (q : Q) : List Char :=
  if q.d = 1 then (toString q.n).data
  else ('(' :: (toString q.n).data) ++ ('/' :: (toString (q.d : Int)).data) ++ [')']

/-- Preprocessor step 4 (Modelled from the spec 4.1.4): a single left-to-right
scan replacing every maximal identifier that is not an assignment target and
is bound to a scalar number (Variable Environment first, then Constants) by
its numeric value; replacement text is not re-scanned. -/
def substChars (env : Env) : Nat → List Char → List Char
  | 0, cs => cs
  | _ + 1, [] => []
  | fuel + 1, c :: cs =>
      if isIdentStart c then
        let (run, rest) := spanIdent (c :: cs)
        let name : String := ⟨run⟩
        if rest.head? = some '=' then run ++ substChars env fuel rest
        else
          match lookupEnv env name with
          | some (.num q) => renderNum q ++ substChars env fuel rest
          | some _ => run ++ substChars env fuel rest
          | none =>
            match constantsTable name with
            | some (.num q) => renderNum q ++ substChars env fuel rest
            | _ => run ++ substChars env fuel rest
      else c :: substChars env fuel cs

def subst (env : Env) (cs : List Char) : List Char :=
  substChars env (cs.length + 1) cs

/-- One scan of preprocessor step 5: find the leftmost number immediately
followed by an alphabetic unit token that is not itself followed by a digit,
and wrap the pair in a unit-constructor call; identifiers are skipped
wholesale so digits inside a name are never mistaken for a literal. -/
def unitScan : Nat → List Char → List Char → Option (List Char)
  | 0, _, _ => none
  | _ + 1, _, [] => none
  | fuel + 1, pre, c :: cs =>
      if isIdentStart c then
        let (run, rest) := spanIdent (c :: cs)
        unitScan fuel (run.reverse ++ pre) rest
      else if c.isDigit then
        let (nrun, rest) := spanNumber (c :: cs)
        match rest with
        | d :: _ =>
            if d.isAlpha then
              let (urun, rest2) := spanAlpha rest
              if (rest2.head?.map Char.isDigit).getD false then
                unitScan fuel (nrun.reverse ++ pre) rest
              else
                some (pre.reverse ++ ('u' :: 'n' :: 'i' :: 't' :: '(' :: nrun)
                      ++ (',' :: urun) ++ (')' :: rest2))
            else unitScan fuel (nrun.reverse ++ pre) rest
        | [] => none
      else unitScan fuel (c :: pre) cs

def unitWrapGo : Nat → List Char → List Char
  | 0, cs => cs
  | fuel + 1, cs =>
      match unitScan (cs.length + 1) [] cs with
      | some cs2 => unitWrapGo fuel cs2
      | none => cs

/-- Preprocessor step 5 (Modelled from the spec 4.1.5): repeatedly rewrite the
leftmost implied-unit annotation until none remains. -/
def unitWrap (cs : List Char) : List Char := unitWrapGo (cs.length + 1) cs

/-- Preprocessor step 6 (Modelled from the spec 4.1.6): the first occurrence
of the word to surrounded by whitespace becomes the word in. -/
def toIn : List Char → List Char
  | ' ' :: 't' :: 'o' :: ' ' :: rest => ' ' :: 'i' :: 'n' :: ' ' :: rest
  | c :: cs => c :: toIn cs
  | [] => []

/-- Unit text of a conversion clause: everything up to the next top-level
whitespace outside parentheses. -/
def unitTextSpan : Nat → List Char → List Char × List Char
  | _, [] => ([], [])
  | depth, c :: cs =>
      if c = ' ' ∧ depth = 0 then ([], c :: cs)
      else
        let d2 := if c = '(' then depth + 1 else if c = ')' then depth - 1 else depth
        let (t, r) := unitTextSpan d2 cs
        (c :: t, r)

def convSplit : List Char → List Char → Option (List Char × List Char)
  | _, [] => none
  | acc, ' ' :: 'i' :: 'n' :: ' ' :: rest => some (acc.reverse, rest)
  | acc, c :: cs => convSplit (c :: acc) cs

/-- Preprocessor step 7 (Modelled from the spec 4.1.7): rewrite the first
conversion clause so its right-hand operand becomes a magnitude-less
unit-constructor call over the unit text, preserving the trailing remainder. -/
def convClause (cs : List Char) : List Char :=
  match convSplit [] cs with
  | none => cs
  | some (left, rest) =>
      let rest2 := rest.dropWhile (fun c => c == ' ')
      let (u, rem) := unitTextSpan 0 rest2
      if u = [] then cs
      else
        (left ++ (' ' :: 'i' :: 'n' :: ' ' :: 'u' :: 'n' :: 'i' :: 't' :: '(' :: u))
          ++ (')' :: rem)

def stripCommentS (s : String) : String := ⟨stripComment s.data⟩

def atReplS (s : String) : String := ⟨atRepl s.data⟩

def pctOfS (s : String) : String := ⟨pctOf s.data⟩

def substS (env : Env) (s : String) : String := ⟨subst env s.data⟩

def unitWrapS (s : String) : String := ⟨unitWrap s.data⟩

def toInS (s : String) : String := ⟨toIn s.data⟩

def convClauseS (s : String) : String := ⟨convClause s.data⟩

/-- The Preprocessor (Modelled from the spec, section 4.1): the seven ordered
text-rewriting steps turning one raw line into canonical expression text.
The beenotepad module implementing it is not under src. -/
def preprocess (env : Env) (s : String) : String :=
  convClauseS (toInS (unitWrapS (substS env (pctOfS (atReplS (stripCommentS s))))))

/-! ### Syntax Builder (Modelled from the spec, sections 2 and 4.2)

A generic arithmetic grammar: tokenizer and recursive-descent parse into the
syntax-tree node kinds the Evaluator dispatches on. -/

inductive Tok where
  | num (q : Q)
  | id (s : String)
  | sym (c : Char)
deriving DecidableEq

def digitsVal (cs : List Char) : Nat :=
  cs.foldl (fun a c => a * 10 + (c.toNat - '0'.toNat)) 0

def numVal (cs : List Char) : Q :=
  let intPart := cs.takeWhile (fun c => c.isDigit)
  let rest := cs.dropWhile (fun c => c.isDigit)
  let frac : Q :=
    match rest with
    | '.' :: ds => Q.norm (digitsVal ds : Int) (10 ^ ds.length)
    | _ => 0
  Q.add ⟨(digitsVal intPart : Int), 1⟩ frac

def lexGo : Nat → List Char → Option (List Tok)
  | 0, _ => none
  | _ + 1, [] => some []
  | fuel + 1, c :: cs =>
      if c = ' ' then lexGo fuel cs
      else if c.isDigit then
        let (nrun, rest) := spanNumber (c :: cs)
        (lexGo fuel rest).map (fun ts => .num (numVal nrun) :: ts)
      else if isIdentStart c then
        let (run, rest) := spanIdent (c :: cs)
        (lexGo fuel rest).map (fun ts => .id ⟨run⟩ :: ts)
      else if c ∈ ['+', '-', '*', '/', '^', '=', '(', ')', ','] then
        (lexGo fuel cs).map (fun ts => .sym c :: ts)
      else none

def lexLine (s : String) : Option (List Tok) := lexGo (s.data.length + 1) s.data

/-- Syntax-tree node kinds (spec section 3): literals, identifiers, unary
negation, binary operators (including the conversion operator in), single
assignment, and calls. -/
inductive Expr where
  | lit (q : Q)
  | evar (x : String)
  | neg (a : Expr)
  | bin (op : String) (a b : Expr)
  | assign (x : String) (e : Expr)
  | call (callee : Expr) (args : List Expr)

mutual

def parseExprT : Nat → List Tok → Except BErr (Expr × List Tok)
  | 0, _ => .error (.synErr false)
  | fuel + 1, ts => do
      let (a, r) ← parseAdd fuel ts
      parseConvLoop fuel a r

def parseConvLoop : Nat → Expr → List Tok → Except BErr (Expr × List Tok)
  | 0, _, _ => .error (.synErr false)
  | fuel + 1, a, .id "in" :: r => do
      let (b, r2) ← parseAdd fuel r
      parseConvLoop fuel (.bin "in" a b) r2
  | _ + 1, a, r => .ok (a, r)

def parseAdd : Nat → List Tok → Except BErr (Expr × List Tok)
  | 0, _ => .error (.synErr false)
  | fuel + 1, ts => do
      let (a, r) ← parseMul fuel ts
      parseAddLoop fuel a r

def parseAddLoop : Nat → Expr → List Tok → Except BErr (Expr × List Tok)
  | 0, _, _ => .error (.synErr false)
  | fuel + 1, a, .sym '+' :: r => do
      let (b, r2) ← parseMul fuel r
      parseAddLoop fuel (.bin "+" a b) r2
  | fuel + 1, a, .sym '-' :: r => do
      let (b, r2) ← parseMul fuel r
      parseAddLoop fuel (.bin "-" a b) r2
  | _ + 1, a, r => .ok (a, r)

def parseMul : Nat → List Tok → Except BErr (Expr × List Tok)
  | 0, _ => .error (.synErr false)
  | fuel + 1, ts => do
      let (a, r) ← parseUnaryE fuel ts
      parseMulLoop fuel a r

def parseMulLoop : Nat → Expr → List Tok → Except BErr (Expr × List Tok)
  | 0, _, _ => .error (.synErr false)
  | fuel + 1, a, .sym '*' :: r => do
      let (b, r2) ← parseUnaryE fuel r
      parseMulLoop fuel (.bin "*" a b) r2
  | fuel + 1, a, .sym '/' :: r => do
      let (b, r2) ← parseUnaryE fuel r
      parseMulLoop fuel (.bin "/" a b) r2
  | _ + 1, a, r => .ok (a, r)

def parseUnaryE : Nat → List Tok → Except BErr (Expr × List Tok)
  | 0, _ => .error (.synErr false)
  | fuel + 1, .sym '-' :: r => do
      let (a, r2) ← parseUnaryE fuel r
      .ok (.neg a, r2)
  | fuel + 1, ts => parsePowE fuel ts

def parsePowE : Nat → List Tok → Except BErr (Expr × List Tok)
  | 0, _ => .error (.synErr false)
  | fuel + 1, ts => do
      let (a, r) ← parsePrimary fuel ts
      match r with
      | .sym '^' :: r2 => do
          let (b, r3) ← parseUnaryE fuel r2
          .ok (.bin "^" a b, r3)
      | _ => .ok (a, r)

def parsePrimary : Nat → List Tok → Except BErr (Expr × List Tok)
  | 0, _ => .error (.synErr false)
  | fuel + 1, .num q :: r => parseCallTail fuel (.lit q) r
  | fuel + 1, .id x :: r => parseCallTail fuel (.evar x) r
  | fuel + 1, .sym '(' :: r => do
      let (e, r2) ← parseExprT fuel r
      match r2 with
      | .sym ')' :: r3 => parseCallTail fuel e r3
      | [] => .error (.synErr true)
      | _ => .error (.synErr false)
  | _ + 1, _ => .error (.synErr false)

def parseCallTail : Nat → Expr → List Tok → Except BErr (Expr × List Tok)
  | 0, _, _ => .error (.synErr false)
  | fuel + 1, e, .sym '(' :: r => do
      let (args, r2) ← parseArgs fuel r
      parseCallTail fuel (.call e args) r2
  | _ + 1, e, r => .ok (e, r)

def parseArgs : Nat → List Tok → Except BErr (List Expr × List Tok)
  | 0, _ => .error (.synErr false)
  | _ + 1, .sym ')' :: r => .ok ([], r)
  | fuel + 1, ts => do
      let (e, r) ← parseExprT fuel ts
      match r with
      | .sym ',' :: r2 => do
          let (es, r3) ← parseArgs fuel r2
          .ok (e :: es, r3)
      | .sym ')' :: r2 => .ok ([e], r2)
      | [] => .error (.synErr true)
      | _ => .error (.synErr false)

end

/-- Parse one canonical line: an assignment `identifier = expression` or a
bare expression (spec section 6, line syntax). -/
def parseStmt (ts : List Tok) : Except BErr Expr :=
  match ts with
  | .id x :: .sym '=' :: rest => do
      let (e, r) ← parseExprT (ts.length * 8 + 16) rest
      match r with
      | [] => .ok (.assign x e)
      | _ => .error (.synErr false)
  | _ => do
      let (e, r) ← parseExprT (ts.length * 8 + 16) ts
      match r with
      | [] => .ok e
      | _ => .error (.synErr false)

/-! ### Evaluator (Modelled from the spec, section 4.2) -/

def promote (v : Value) : Option (Q × Q) :=
  match v with
  | .num q => some (q, 0)
  | .cplx a b => some (a, b)
  | .quantity _ _ => none

/-- Scale factors of two units of the same dimension, when both are known. -/
def sameDim (u v : String) : Option (Q × Q) :=
  match unitInfo u, unitInfo v with
  | some (du, fu), some (dv, fv) => if du = dv then some (fu, fv) else none
  | _, _ => none

def vneg : Value → Value
  | .num q => .num (Q.neg q)
  | .cplx a b => .cplx (Q.neg a) (Q.neg b)
  | .quantity m u => .quantity (Q.neg m) u

/-- Addition: numbers add, same-dimension quantities add after conversion,
and mixing a quantity with a dimensionless value is an inconsistency
(spec section 3, Value arithmetic). -/
def vadd : Value → Value → Except BErr Value
  | .num a, .num b => .ok (.num (Q.add a b))
  | .quantity m u, .quantity n v =>
      if u = v then .ok (.quantity (Q.add m n) u)
      else
        match sameDim u v with
        | some (fu, fv) => .ok (.quantity (Q.add m (Q.div (Q.mul n fv) fu)) u)
        | none => .error .inconsistentUnits
  | .quantity _ _, _ => .error .inconsistentUnits
  | _, .quantity _ _ => .error .inconsistentUnits
  | a, b =>
      match promote a, promote b with
      | some (ar, ai), some (br, bi) => .ok (.cplx (Q.add ar br) (Q.add ai bi))
      | _, _ => .error .unsupportedOp

def vsub (a b : Value) : Except BErr Value := vadd a (vneg b)

def vmul : Value → Value → Except BErr Value
  | .num a, .num b => .ok (.num (Q.mul a b))
  | .num a, .quantity m u => .ok (.quantity (Q.mul a m) u)
  | .quantity m u, .num b => .ok (.quantity (Q.mul m b) u)
  | .quantity m u, .quantity n v => .ok (.quantity (Q.mul m n) (u ++ "*" ++ v))
  | a, b =>
      match promote a, promote b with
      | some (ar, ai), some (br, bi) =>
          .ok (.cplx (Q.sub (Q.mul ar br) (Q.mul ai bi))
                     (Q.add (Q.mul ar bi) (Q.mul ai br)))
      | _, _ => .error .unsupportedOp

def isZeroV : Value → Bool
  | .num q => q.isZero
  | .cplx a b => a.isZero && b.isZero
  | .quantity m _ => m.isZero

def vdiv (a b : Value) : Except BErr Value :=
  if isZeroV b then .error .divByZero
  else
    match a, b with
    | .num x, .num y => .ok (.num (Q.div x y))
    | .quantity m u, .num y => .ok (.quantity (Q.div m y) u)
    | .num x, .quantity m u => .ok (.quantity (Q.div x m) ("1/" ++ u))
    | .quantity m u, .quantity n v =>
        if u = v then .ok (.num (Q.div m n))
        else
          match sameDim u v with
          | some (fu, fv) => .ok (.num (Q.div (Q.mul m fu) (Q.mul n fv)))
          | none => .ok (.quantity (Q.div m n) (u ++ "/" ++ v))
    | x, y =>
        match promote x, promote y with
        | some (ar, ai), some (br, bi) =>
            let dd := Q.add (Q.mul br br) (Q.mul bi bi)
            .ok (.cplx (Q.div (Q.add (Q.mul ar br) (Q.mul ai bi)) dd)
                       (Q.div (Q.sub (Q.mul ai br) (Q.mul ar bi)) dd))
        | _, _ => .error .unsupportedOp

/-- Power: integer exponents are evaluated exactly; fractional exponents are
delegated to the external Math Library and are outside the model. -/
def vpow : Value → Value → Except BErr Value
  | .num a, .num b =>
      if b.d = 1 then
        if a.isZero ∧ b.n < 0 then .error .divByZero
        else .ok (.num (Q.zpow a b.n))
      else .error .unsupportedOp
  | _, _ => .error .unsupportedOp

/-- The conversion operator in (spec section 4.2): a quantity converts to the
target unit, a plain number is merely tagged with the target unit. -/
def vconv : Value → Value → Except BErr Value
  | .quantity m u, .quantity _ v =>
      if u = v then .ok (.quantity m v)
      else
        match sameDim u v with
        | some (fu, fv) => .ok (.quantity (Q.div (Q.mul m fu) fv) v)
        | none => .error .inconsistentUnits
  | .num k, .quantity _ v => .ok (.quantity k v)
  | _, _ => .error .unsupportedOp

/-- Binary-operator dispatch; an unregistered operator symbol is a
BadOperator failure (spec section 4.2, BinaryOp). -/
def applyBin (op : String) (a b : Value) : Except BErr Value :=
  match op with
  | "+" => vadd a b
  | "-" => vsub a b
  | "*" => vmul a b
  | "/" => vdiv a b
  | "^" => vpow a b
  | "in" => vconv a b
  | _ => .error (.badOp op)

def knownFuncs : List String := ["sqrt", "abs", "floor"]

def angleFuncs : List String := ["sin", "cos", "tan"]

/-- Modelled from the spec: angle coercion (section 4.2, Call c) — a
dimensioned argument of angle dimension is converted to radians. -/
def toRadians (v : Value) : Value :=
  match v with
  | .quantity m u =>
      match unitInfo u with
      | some (d, f) =>
          if d = "A" then .num (Q.div (Q.mul m f) (Q.norm 572957795130823 (10 ^ 13)))
          else v
      | none => v
  | _ => v

/-- Modelled from the spec: the Function Table entries the claims exercise,
delegating to the external Math Library; the square root of a negative
number is a pure imaginary complex value. -/
def applyFunc : String → List Value → Except BErr Value
  | "sqrt", [.num q] =>
      if Q.ble 0 q then .ok (.num (ratSqrt q))
      else .ok (.cplx 0 (ratSqrt (Q.neg q)))
  | "abs", [.num q] => .ok (.num (Q.abs q))
  | "abs", [.cplx a b] => .ok (.num (ratSqrt (Q.add (Q.mul a a) (Q.mul b b))))
  | "abs", [.quantity m u] => .ok (.quantity (Q.abs m) u)
  | "floor", [.num q] => .ok (.num ⟨Q.floor q, 1⟩)
  | _, _ => .error .unsupportedOp

mutual

/-- The Evaluator (Modelled from the spec, section 4.2): dispatch by node
kind against the Variable Environment, Constants, Function Table and the
unit-constructor pseudo-function; identifier resolution checks Constants,
then the Variable Environment, then the unit-only interpretation, failing
with UnknownIdentifier. -/
def evalE : Nat → Env → Expr → Except BErr (Value × Env)
  | 0, _, _ => .error .unsupportedOp
  | _ + 1, env, .lit q => .ok (.num q, env)
  | _ + 1, env, .evar x =>
      match constantsTable x with
      | some v => .ok (v, env)
      | none =>
        match lookupEnv env x with
        | some v => .ok (v, env)
        | none =>
            if isUnit x then .ok (.quantity 1 x, env)
            else .error (.unknownIdent x)
  | fuel + 1, env, .neg a => do
      let (v, env2) ← evalE fuel env a
      .ok (vneg v, env2)
  | fuel + 1, env, .bin op a b => do
      let (va, env1) ← evalE fuel env a
      let (vb, env2) ← evalE fuel env1 b
      let v ← applyBin op va vb
      .ok (v, env2)
  | fuel + 1, env, .assign x e => do
      let (v, env1) ← evalE fuel env e
      .ok (v, insertEnv env1 x v)
  | fuel + 1, env, .call callee args => evalCall fuel env callee args

/-- Call dispatch (spec section 4.2): numeric-literal callee is implied
multiplication, a bound identifier callee is implied multiplication by its
value, otherwise the unit constructor or the Function Table applies; an
unrecognized function name fails with UnknownFunction. -/
def evalCall : Nat → Env → Expr → List Expr → Except BErr (Value × Env)
  | 0, _, _, _ => .error .unsupportedOp
  | fuel + 1, env, .lit k, args => impliedMul fuel env (.num k) args
  | fuel + 1, env, .evar f, args =>
      match constantsTable f with
      | some bv => impliedMul fuel env bv args
      | none =>
        match lookupEnv env f with
        | some bv => impliedMul fuel env bv args
        | none =>
            if f = "unit" then unitCtor fuel env args
            else if f ∈ knownFuncs then do
              let (vs, env1) ← evalArgs fuel env args
              let vs2 := if f ∈ angleFuncs then vs.map toRadians else vs
              let v ← applyFunc f vs2
              .ok (v, env1)
            else .error (.unknownFunc f)
  | fuel + 1, env, callee, args => do
      let (vc, env1) ← evalE fuel env callee
      impliedMul fuel env1 vc args

def impliedMul : Nat → Env → Value → List Expr → Except BErr (Value × Env)
  | 0, _, _, _ => .error .unsupportedOp
  | fuel + 1, env, bv, [a] => do
      let (v, env1) ← evalE fuel env a
      let r ← vmul bv v
      .ok (r, env1)
  | _ + 1, _, _, _ => .error .unsupportedOp

/-- The unit-constructor pseudo-function (spec section 4.2, Call c): one
argument builds a unit-only quantity, two build magnitude plus unit, a third
auxiliary argument is accepted and ignored in this model; an unknown unit
name fails with UnavailableUnit. -/
def unitCtor : Nat → Env → List Expr → Except BErr (Value × Env)
  | 0, _, _ => .error .unsupportedOp
  | _ + 1, env, [.evar u] =>
      if isUnit u then .ok (.quantity 1 u, env) else .error (.unavailUnit u)
  | fuel + 1, env, [m, .evar u] => unitCtor2 fuel env m u
  | fuel + 1, env, [m, .evar u, _] => unitCtor2 fuel env m u
  | _ + 1, _, _ => .error .unsupportedOp

def unitCtor2 : Nat → Env → Expr → String → Except BErr (Value × Env)
  | 0, _, _, _ => .error .unsupportedOp
  | fuel + 1, env, m, u => do
      let (vm, env1) ← evalE fuel env m
      match vm with
      | .num q =>
          if isUnit u then .ok (.quantity q u, env1) else .error (.unavailUnit u)
      | _ => .error .unsupportedOp

def evalArgs : Nat → Env → List Expr → Except BErr (List Value × Env)
  | 0, _, _ => .error .unsupportedOp
  | _ + 1, env, [] => .ok ([], env)
  | fuel + 1, env, a :: as => do
      let (v, env1) ← evalE fuel env a
      let (vs, env2) ← evalArgs fuel env1 as
      .ok (v :: vs, env2)

end

/-- Modelled from the spec: BeeNotepad.append of the missing beenotepad
module — preprocess one raw line, parse it, and evaluate it against the
environment; a blank or comment-only line yields none (the empty result),
any other line yields its value and the possibly-extended environment.
Evaluation of a line is atomic: on failure the environment is unchanged
(spec section 4.2, state machine). -/
def appendLine (env : Env) (line : String) : Except BErr (Option Value × Env) :=
  let canon := preprocess env line
  match lexLine canon with
  | none => .error (.synErr false)
  | some [] => .ok (none, env)
  | some ts =>
      match parseStmt ts with
      | .error e => .error e
      | .ok e => do
          let (v, env2) ← evalE (2 * canon.data.length + 16) env e
          .ok (some v, env2)

/-! ### The Qt front-end per-line loop (src/beecalc.py, processNotepad) -/

/-- Per-line observable outcome, used to compare the two front ends up to
display formatting: the empty result, the (zero-snapped) value, or an error
marker. -/
inductive Outcome where
  | empty
  | val (v : Value)
  | err
deriving DecidableEq

/-- Evaluation-relevant state of one processNotepad pass: the shared
environment `notepad.parser.vars`, the `all_output` entries (text and
zero-point), the outcome trace, the status-bar message, the stats list
`total`, and the `any_errored` flag. -/
structure QtState where
  env : Env
  entries : List (String × Nat)
  outcomes : List Outcome
  statusMsg : Option String
  total : List Q
  anyErrored : Bool
deriving DecidableEq

/-- The except-clause chain of processNotepad (src/beecalc.py lines 896 to
941) as a map from error kind to the short display marker and the longer
status message.  The association of taxonomy kinds with Python exception
classes on the raising side lives in the missing beenotepad module and is
Modelled from the spec: UnknownIdentifier surfaces through the same
UnavailableUnit exception as unit failures (the handler message says so:
no such unit, variable, or constant), while BadOperator and
UnsupportedOperation fall through to the broad final except clause. -/
def qtHandler : BErr → String × String
  | .synErr true => ("<Unclosed \x27(\x27>", "\x27(\x27 was never closed")
  | .synErr false => ("?", "Invalid syntax")
  | .divByZero => ("<Zero Division>", "Divide by zero not possible")
  | .inconsistentUnits => ("<Inconsistent units>", "Inconsistent units")
  | .unknownFunc f => ("<Unknown function>", f ++ ": no such function")
  | .unknownIdent x => ("<No unit/var>", x ++ ": no such unit, variable, or constant")
  | .unavailUnit u => ("<No unit/var>", u ++ ": no such unit, variable, or constant")
  | .badOp op => ("?", op ++ ": bad operator")
  | .unsupportedOp => ("?", "unsupported operation")

def qtMarker (e : BErr) : String := (qtHandler e).1

def qtMessage (e : BErr) : String := (qtHandler e).2

/-- Decimal rendering of a rational, collapsing the Python int/float
distinction: integral values print as integers, terminating decimals as
decimals. -/
def fmtNum (q : Q) : String :=
  if q.d = 1 then toString q.n
  else
    match (List.range 21).find? (fun k => 10 ^ k % q.d == 0) with
    | some k =>
        let scaled : Int := q.n * ((10 ^ k / q.d : Nat) : Int)
        let sign := if scaled < 0 then "-" else ""
        let a := scaled.natAbs
        let fpStr := toString (a % 10 ^ k)
        let pad : String := ⟨List.replicate (k - fpStr.length) '0'⟩
        sign ++ toString (a / 10 ^ k) ++ "." ++ pad ++ fpStr
    | none => toString q.n ++ "/" ++ toString (q.d : Int)

/-- Result display of the Qt loop (src/beecalc.py lines 869 to 887). -/
def displayQt : Value → String
  | .num q => fmtNum q
  | .cplx a b => fmtNum a ++ "+" ++ fmtNum b ++ "j"
  | .quantity m u => fmtNum m ++ " " ++ u

/-- The zero-point of an output entry (src/beecalc.py line 872):
the distance from the first dot or space to the end of the text. -/
def zeroPt (s : String) : Nat :=
  s.length - ((s.data.findIdx? (fun c => c == '.' || c == ' ')).getD s.length)

/-- Zero snapping of the Qt loop (src/beecalc.py line 867): a non-complex
result within 1e-15 of zero is replaced by the exact integer zero. -/
def qtSnap (v : Value) : Value :=
  if !v.isCplx && v.closeZero then .num 0 else v

/-- One iteration of the Qt per-line loop (src/beecalc.py lines 862 to 943):
evaluate the line; on success format it, append one output entry, extend the
stats list, and bind ans when the snapped result is truthy; on failure append
exactly one error-marker entry and show the status message, leaving the
environment untouched. -/
def qtStep (st : QtState) (line : String) : QtState :=
  match appendLine st.env line with
  | .error e =>
      { st with
        entries := st.entries ++ [(qtMarker e, (qtMarker e).length)]
        outcomes := st.outcomes ++ [.err]
        statusMsg := some (qtMessage e)
        anyErrored := true }
  | .ok (none, env2) =>
      { st with
        env := env2
        entries := st.entries ++ [("", 0)]
        outcomes := st.outcomes ++ [.empty] }
  | .ok (some v0, env2) =>
      let v := qtSnap v0
      let t := displayQt v
      { st with
        env := if v.truthy then insertEnv env2 "ans" v else env2
        entries := st.entries ++ [(t, zeroPt t)]
        outcomes := st.outcomes ++ [.val v]
        total :=
          match v.floatOf with
          | some q => st.total ++ [q]
          | none => st.total }

def qtRunFrom (st : QtState) (lines : List String) : QtState :=
  lines.foldl qtStep st

def initQtState (env : Env) : QtState :=
  { env := env, entries := [], outcomes := [], statusMsg := none,
    total := [], anyErrored := false }

def initQt : QtState := initQtState []

/-- Modelled from the spec: BeeNotepad.clear resets the Variable Environment
at the start of each full pass (section 5); whatever environment the notepad
held before the pass is discarded. -/
def clearVars (_prior : Env) : Env := []

/-- A full-notebook Qt pass (processNotepad, src/beecalc.py lines 848 to 975,
restricted to its evaluation-relevant state): clear the notepad, run every
line, and clear the status message when no line errored. -/
def qtProcess (prior : Env) (lines : List String) : QtState :=
  let st := qtRunFrom (initQtState (clearVars prior)) lines
  if st.anyErrored then st else { st with statusMsg := none }

/-! ### The Kivy front-end per-line loop (src/beecalcgui.py, on_text) -/

structure KvState where
  env : Env
  entries : List String
  outcomes : List Outcome
deriving DecidableEq

/-- Result display of the Kivy loop (src/beecalcgui.py lines 120 to 124). -/
def displayKv : Value → String
  | .num q => fmtNum q
  | .cplx a b => fmtNum a ++ "+" ++ fmtNum b ++ "j"
  | .quantity m u => fmtNum m ++ " " ++ u

/-- Zero snapping of the Kivy loop (src/beecalcgui.py line 117); unlike the
Qt loop there is no complex guard, and this snap is only reached for
non-complex results. -/
def kvSnap (v : Value) : Value :=
  if v.closeZero then .num 0 else v

/-- One iteration of the Kivy per-line loop (src/beecalcgui.py lines 113 to
133).  `math.isclose` raises TypeError on a complex result, so a complex
value falls into the broad except clause and is shown as the error marker,
after the append has already updated the environment but before ans is
bound. -/
def kvStep (st : KvState) (line : String) : KvState :=
  match appendLine st.env line with
  | .error _ =>
      { st with entries := st.entries ++ ["?"], outcomes := st.outcomes ++ [.err] }
  | .ok (none, env2) =>
      { st with
        env := env2
        entries := st.entries ++ [""]
        outcomes := st.outcomes ++ [.empty] }
  | .ok (some v0, env2) =>
      if v0.isCplx then
        { st with
          env := env2
          entries := st.entries ++ ["?"]
          outcomes := st.outcomes ++ [.err] }
      else
        let v := kvSnap v0
        { st with
          env := if v.truthy then insertEnv env2 "ans" v else env2
          entries := st.entries ++ [displayKv v]
          outcomes := st.outcomes ++ [.val v] }

def kvRunFrom (st : KvState) (lines : List String) : KvState :=
  lines.foldl kvStep st

def initKv : KvState := { env := [], entries := [], outcomes := [] }

/-- No line of the pass evaluates to a complex value, following the
environment evolution of the per-line loops. -/
def noCplxPass : Env → List String → Bool
  | _, [] => true
  | env, l :: ls =>
      match appendLine env l with
      | .error _ => noCplxPass env ls
      | .ok (none, env2) => noCplxPass env2 ls
      | .ok (some v, env2) =>
          !v.isCplx &&
            noCplxPass
              (if (qtSnap v).truthy then insertEnv env2 "ans" (qtSnap v) else env2) ls

/-! ### Helper lemmas -/

theorem lookup_insertEnv_self (env : Env) (x : String) (v : Value) :
    lookupEnv (insertEnv env x v) x = some v := by
  induction env with
  | nil => simp [insertEnv, lookupEnv]
  | cons p rest ih =>
      obtain ⟨k, w⟩ := p
      by_cases h : k = x
      · simp [insertEnv, lookupEnv, h]
      · simp [insertEnv, lookupEnv, h, ih]

theorem qtStep_entries_len (st : QtState) (line : String) :
    (qtStep st line).entries.length = st.entries.length + 1 := by
  unfold qtStep
  split <;> simp

theorem qtRunFrom_entries_len (lines : List String) :
    ∀ st : QtState,
      (qtRunFrom st lines).entries.length = st.entries.length + lines.length := by
  induction lines with
  | nil => intro st; simp [qtRunFrom]
  | cons l ls ih =>
      intro st
      show (qtRunFrom (qtStep st l) ls).entries.length
        = st.entries.length + (l :: ls).length
      rw [ih (qtStep st l), qtStep_entries_len]
      simp
      omega

/-- Success shape of one Qt loop iteration. -/
theorem qtStep_ok (st : QtState) (line : String) (v : Value) (env2 : Env)
    (h : appendLine st.env line = .ok (some v, env2)) :
    qtStep st line =
      { st with
        env := if (qtSnap v).truthy then insertEnv env2 "ans" (qtSnap v) else env2
        entries := st.entries ++
          [(displayQt (qtSnap v), zeroPt (displayQt (qtSnap v)))]
        outcomes := st.outcomes ++ [.val (qtSnap v)]
        total :=
          match (qtSnap v).floatOf with
          | some q => st.total ++ [q]
          | none => st.total } := by
  unfold qtStep
  rw [h]

theorem str_append_ne_empty (a b : String) (hb : b ≠ "") : a ++ b ≠ "" := by
  obtain ⟨la⟩ := a
  obtain ⟨lb⟩ := b
  intro h
  apply hb
  have h2 : la ++ lb = ([] : List Char) := congrArg String.data h
  have h3 : lb = [] := (List.append_eq_nil.mp h2).2
  rw [h3]

/-! ### The claims -/

/-- C1: one line's failure does not abort the pass — the failing line
contributes exactly one error-marker output entry (src/beecalc.py lines 936
to 943), and a pass over any list of input lines produces exactly one output
entry per line, so the output count always equals the line count. -/
theorem c1_error_lines_do_not_abort_pass (st : QtState) (line : String) (e : BErr)
    (h : appendLine st.env line = .error e) :
    (qtStep st line).entries = st.entries ++ [(qtMarker e, (qtMarker e).length)] ∧
    ∀ lines : List String,
      (qtRunFrom st lines).entries.length = st.entries.length + lines.length := by
  constructor
  · unfold qtStep
    rw [h]
  · intro lines
    exact qtRunFrom_entries_len lines st

/-- Witness for C1: a concrete failing line contributes exactly the question
mark marker entry, and a two-line pass yields two entries. -/
theorem c1_witness :
    (qtStep initQt "1+").entries = [("?", 1)] ∧
    (qtRunFrom initQt ["1+", "2+3"]).entries.length = 2 := by
  have h := c1_error_lines_do_not_abort_pass initQt "1+" (.synErr false) (by decide)
  exact ⟨h.1, h.2 ["1+", "2+3"]⟩

/-- C2: when a line's evaluation fails, the Variable Environment after the
failed attempt (including the ans binding and every binding created by
earlier lines of the pass) equals the environment before it — the error
branch of the loop never touches `parser.vars` (src/beecalc.py lines 896 to
941), and appendLine is atomic. -/
theorem c2_env_unchanged_on_error (st : QtState) (line : String) (e : BErr)
    (h : appendLine st.env line = .error e) :
    (qtStep st line).env = st.env := by
  unfold qtStep
  rw [h]

/-- Witness for C2: an unknown identifier leaves the empty environment empty. -/
theorem c2_witness : (qtStep initQt "nosuch+1").env = [] :=
  c2_env_unchanged_on_error initQt "nosuch+1" (.unknownIdent "nosuch") (by decide)

/-- C3 counterexample: the line 0 evaluates successfully to the non-empty
result 0, yet after the pass ans is unbound — `if out:` at src/beecalc.py
line 894 skips results that are falsy, contradicting the claim for lines
whose result is the number 0. -/
theorem c3_counterexample_zero_skips_ans :
    appendLine [] "0" = .ok (some (.num 0), []) ∧
    lookupEnv (qtRunFrom initQt ["0"]).env "ans" = none := by
  exact ⟨by decide, by decide⟩

/-- C3 amended: ans is bound after every successfully evaluated, non-empty
line whose zero-snapped result is truthy (any nonzero result); lines whose
result is 0 — or within 1e-15 of it — leave ans unchanged. -/
theorem c3_ans_bound_for_truthy_results (st : QtState) (line : String)
    (v : Value) (env2 : Env)
    (h : appendLine st.env line = .ok (some v, env2))
    (ht : (qtSnap v).truthy = true) :
    lookupEnv (qtStep st line).env "ans" = some (qtSnap v) := by
  rw [qtStep_ok st line v env2 h]
  show lookupEnv
      (if (qtSnap v).truthy then insertEnv env2 "ans" (qtSnap v) else env2) "ans"
    = some (qtSnap v)
  rw [if_pos ht]
  exact lookup_insertEnv_self env2 "ans" (qtSnap v)

/-- Witness for C3: after the line 2+3 the variable ans holds 5. -/
theorem c3_witness : lookupEnv (qtStep initQt "2+3").env "ans" = some (.num 5) :=
  c3_ans_bound_for_truthy_results initQt "2+3" (.num 5) [] (by decide) (by decide)

/-- C4: every full pass resets the Variable Environment before evaluating any
line — the result of processNotepad is independent of whatever environment
the notepad held before the pass (notepad.clear at src/beecalc.py line 855) —
and a pass decomposes into its prefix, so each line observes exactly the
bindings accumulated by the earlier lines of the same pass. -/
theorem c4_pass_resets_environment :
    (∀ (prior : Env) (lines : List String),
      qtProcess prior lines = qtProcess [] lines) ∧
    ∀ (st : QtState) (pre post : List String),
      qtRunFrom st (pre ++ post) = qtRunFrom (qtRunFrom st pre) post := by
  constructor
  · intro prior lines
    rfl
  · intro st pre post
    simp [qtRunFrom, List.foldl_append]

/-- C5 counterexample: two pairs of distinct error kinds display identical
short markers — UnknownIdentifier and UnavailableUnit both show the
no-unit-or-variable marker, and a generic SyntaxError and a BadOperator both
show the bare question mark — refuting pairwise distinctness of the markers
across the taxonomy. -/
theorem c5_counterexample_marker_collision :
    qtMarker (.unknownIdent "a") = qtMarker (.unavailUnit "b") ∧
    qtMarker (.synErr false) = qtMarker (.badOp "&") ∧
    BErr.unknownIdent "a" ≠ BErr.unavailUnit "b" ∧
    BErr.synErr false ≠ BErr.badOp "&" := by
  refine ⟨rfl, rfl, by decide, by decide⟩

/-- C5 amended: every failure yields a non-empty short marker and a
non-empty status message, and the markers distinguish division by zero,
inconsistent units, unknown functions, unclosed parentheses, the
unit-or-identifier group and the generic group from one another; but
UnknownIdentifier and UnavailableUnit share one marker, and generic
SyntaxError, BadOperator and UnsupportedOperation all share the
question-mark marker. -/
theorem c5_markers_and_messages :
    (∀ e : BErr, qtMarker e ≠ "" ∧ qtMessage e ≠ "") ∧
    qtMarker .divByZero = "<Zero Division>" ∧
    qtMarker .inconsistentUnits = "<Inconsistent units>" ∧
    (∀ f, qtMarker (.unknownFunc f) = "<Unknown function>") ∧
    (∀ x, qtMarker (.unknownIdent x) = "<No unit/var>") ∧
    (∀ u, qtMarker (.unavailUnit u) = "<No unit/var>") ∧
    qtMarker (.synErr true) = "<Unclosed \x27(\x27>" ∧
    qtMarker (.synErr false) = "?" ∧
    (∀ op, qtMarker (.badOp op) = "?") ∧
    qtMarker .unsupportedOp = "?" ∧
    (["?", "<Unclosed \x27(\x27>", "<Zero Division>", "<Inconsistent units>",
      "<Unknown function>", "<No unit/var>"] : List String).Nodup := by
  refine ⟨?_, rfl, rfl, fun f => rfl, fun x => rfl, fun u => rfl, rfl, rfl,
    fun op => rfl, rfl, by decide⟩
  intro e
  cases e with
  | synErr b => cases b <;> exact ⟨by decide, by decide⟩
  | badOp op =>
      exact ⟨(by decide : ("?" : String) ≠ ""),
        str_append_ne_empty op ": bad operator" (by decide)⟩
  | unknownFunc f =>
      exact ⟨(by decide : ("<Unknown function>" : String) ≠ ""),
        str_append_ne_empty f ": no such function" (by decide)⟩
  | unknownIdent x =>
      exact ⟨(by decide : ("<No unit/var>" : String) ≠ ""),
        str_append_ne_empty x ": no such unit, variable, or constant" (by decide)⟩
  | unavailUnit u =>
      exact ⟨(by decide : ("<No unit/var>" : String) ≠ ""),
        str_append_ne_empty u ": no such unit, variable, or constant" (by decide)⟩
  | inconsistentUnits => exact ⟨by decide, by decide⟩
  | divByZero => exact ⟨by decide, by decide⟩
  | unsupportedOp => exact ⟨by decide, by decide⟩

/-- C6: a blank line and a comment-only line each contribute the empty output
entry and leave the rest of the pass state — the environment with its ans
binding, the status message and the stats — unchanged; and the line
`1+3 # Comment` evaluates to 4 in every environment. -/
theorem c6_blank_and_comment_lines :
    (∀ st : QtState, qtStep st "" =
      { st with entries := st.entries ++ [("", 0)],
                outcomes := st.outcomes ++ [.empty] }) ∧
    (∀ st : QtState, qtStep st "# Comment" =
      { st with entries := st.entries ++ [("", 0)],
                outcomes := st.outcomes ++ [.empty] }) ∧
    ∀ env : Env, appendLine env "1+3 # Comment" = .ok (some (.num 4), env) := by
  refine ⟨fun st => ?_, fun st => ?_, fun env => ?_⟩ <;> rfl

/-- C7: lines evaluate top to bottom — in the notebook `a=2` then `a*3` the
second line evaluates to 6, while in the reversed notebook the first line
fails with UnknownIdentifier for a (visible at append level, in the pass
outcomes, and as the no-unit-or-variable marker in the output entries). -/
theorem c7_top_to_bottom_ordering :
    (qtRunFrom initQt ["a=2", "a*3"]).outcomes =
      [.val (.num 2), .val (.num 6)] ∧
    appendLine [] "a*3" = .error (.unknownIdent "a") ∧
    (qtRunFrom initQt ["a*3", "a=2"]).outcomes = [.err, .val (.num 2)] ∧
    (qtRunFrom initQt ["a*3", "a=2"]).entries.map Prod.fst =
      ["<No unit/var>", "2"] := by
  refine ⟨by decide, by decide, by decide, by decide⟩

/-- C8 counterexample: preprocessing is not idempotent — on a raw line with
two percent-of phrases the first pass rewrites only the first phrase, and a
second pass over the canonical output rewrites the surviving phrase, so the
output is not a fixed point. -/
theorem c8_counterexample_not_idempotent :
    preprocess [] (preprocess [] "1 % of 2 % of 3") ≠
      preprocess [] "1 % of 2 % of 3" := by
  decide

/-- C8 amended: the canonical text is a fixed point of preprocessing exactly
when no individual rewriting step changes it further — whenever each of the
seven steps fixes a string, the whole Preprocessor fixes it.  (By the
counterexample, a first pass can leave a further percent-of or to phrase for
a second pass to rewrite, so idempotence fails in general.) -/
theorem c8_fixed_point_of_steps (env : Env) (s : String)
    (h1 : stripCommentS s = s) (h2 : atReplS s = s) (h3 : pctOfS s = s)
    (h4 : substS env s = s) (h5 : unitWrapS s = s) (h6 : toInS s = s)
    (h7 : convClauseS s = s) :
    preprocess env s = s := by
  unfold preprocess
  rw [h1, h2, h3, h4, h5, h6, h7]

/-- Witness for C8 at a concrete line that every step fixes. -/
theorem c8_witness : preprocess [] "2+2" = "2+2" :=
  c8_fixed_point_of_steps [] "2+2" (by decide) (by decide) (by decide)
    (by decide) (by decide) (by decide) (by decide)

/-- C9: a successfully evaluated non-complex result within absolute tolerance
1e-15 of zero is displayed as exactly 0 (output entry text 0, zero-point 0)
and does not update ans — the environment after the line is exactly the one
the evaluation returned (src/beecalc.py lines 867 and 894). -/
theorem c9_tiny_results_display_zero_and_skip_ans (st : QtState) (line : String)
    (v : Value) (env2 : Env)
    (h : appendLine st.env line = .ok (some v, env2))
    (hc : v.isCplx = false) (hz : v.closeZero = true) :
    (qtStep st line).entries = st.entries ++ [("0", 0)] ∧
    (qtStep st line).env = env2 := by
  have hsnap : qtSnap v = .num 0 := by
    unfold qtSnap
    rw [hc, hz]
    rfl
  rw [qtStep_ok st line v env2 h, hsnap]
  exact ⟨rfl, rfl⟩

/-- Witness for C9: the line holding the literal 1e-16 displays as 0 and
leaves the environment empty. -/
theorem c9_witness :
    (qtStep initQt "0.0000000000000001").entries = [("0", 0)] ∧
    (qtStep initQt "0.0000000000000001").env = [] :=
  c9_tiny_results_display_zero_and_skip_ans initQt "0.0000000000000001"
    (.num ⟨1, 10 ^ 16⟩) [] (by decide) (by decide) (by decide)

/-- C10 counterexample: on the notebook consisting of the single line
sqrt(-1) the Qt loop records the complex result value while the Kivy loop
records an error marker (its math.isclose call raises TypeError on a complex
result), so the two front-end loops are not equivalent. -/
theorem c10_counterexample_complex_divergence :
    (qtRunFrom initQt ["sqrt(-1)"]).outcomes = [.val (.cplx 0 1)] ∧
    (kvRunFrom initKv ["sqrt(-1)"]).outcomes = [.err] ∧
    (qtRunFrom initQt ["sqrt(-1)"]).outcomes ≠
      (kvRunFrom initKv ["sqrt(-1)"]).outcomes := by
  refine ⟨by decide, by decide, by decide⟩

/-- C10 amended: as long as no line of the notebook evaluates to a complex
value, the Qt and Kivy per-line loops are equivalent up to display
formatting — starting from environments and outcome traces that agree, they
produce identical outcome traces (the same result value, empty result, or
error marker for every line) and identical final environments. -/
theorem c10_loops_agree_without_complex (lines : List String) :
    ∀ (qs : QtState) (ks : KvState),
      qs.env = ks.env → qs.outcomes = ks.outcomes →
      noCplxPass qs.env lines = true →
      (qtRunFrom qs lines).outcomes = (kvRunFrom ks lines).outcomes ∧
      (qtRunFrom qs lines).env = (kvRunFrom ks lines).env := by
  induction lines with
  | nil => intro qs ks he ho _; exact ⟨ho, he⟩
  | cons l ls ih =>
      intro qs ks he ho hn
      have hek : appendLine ks.env l = appendLine qs.env l := by rw [he]
      simp only [noCplxPass] at hn
      rcases happ : appendLine qs.env l with e | ⟨vo, env2⟩
      · rw [happ] at hn
        have hqe : (qtStep qs l).env = qs.env := by unfold qtStep; rw [happ]
        have hqo : (qtStep qs l).outcomes = qs.outcomes ++ [.err] := by
          unfold qtStep; rw [happ]
        have hke : (kvStep ks l).env = ks.env := by unfold kvStep; rw [hek, happ]
        have hko : (kvStep ks l).outcomes = ks.outcomes ++ [.err] := by
          unfold kvStep; rw [hek, happ]
        exact ih (qtStep qs l) (kvStep ks l)
          (by rw [hqe, hke, he]) (by rw [hqo, hko, ho]) (by rw [hqe]; exact hn)
      · rcases vo with _ | v
        · rw [happ] at hn
          have hqe : (qtStep qs l).env = env2 := by unfold qtStep; rw [happ]
          have hqo : (qtStep qs l).outcomes = qs.outcomes ++ [.empty] := by
            unfold qtStep; rw [happ]
          have hke : (kvStep ks l).env = env2 := by unfold kvStep; rw [hek, happ]
          have hko : (kvStep ks l).outcomes = ks.outcomes ++ [.empty] := by
            unfold kvStep; rw [hek, happ]
          exact ih (qtStep qs l) (kvStep ks l)
            (by rw [hqe, hke]) (by rw [hqo, hko, ho]) (by rw [hqe]; exact hn)
        · rw [happ] at hn
          have hn2 : (!v.isCplx &&
              noCplxPass
                (if (qtSnap v).truthy then insertEnv env2 "ans" (qtSnap v) else env2)
                ls) = true := hn
          rw [Bool.and_eq_true] at hn2
          obtain ⟨hcb, hrest⟩ := hn2
          have hc : v.isCplx = false := by
            cases hvc : v.isCplx
            · rfl
            · rw [hvc] at hcb; exact absurd hcb (by decide)
          have hsnap : kvSnap v = qtSnap v := by
            unfold kvSnap qtSnap
            rw [hc]
            rfl
          have hqe : (qtStep qs l).env =
              (if (qtSnap v).truthy then insertEnv env2 "ans" (qtSnap v) else env2) := by
            unfold qtStep; rw [happ]
          have hqo : (qtStep qs l).outcomes = qs.outcomes ++ [.val (qtSnap v)] := by
            unfold qtStep; rw [happ]
          have hke : (kvStep ks l).env =
              (if (qtSnap v).truthy then insertEnv env2 "ans" (qtSnap v) else env2) := by
            unfold kvStep
            rw [hek, happ]
            simp [hc, hsnap]
          have hko : (kvStep ks l).outcomes = ks.outcomes ++ [.val (qtSnap v)] := by
            unfold kvStep
            rw [hek, happ]
            simp [hc, hsnap]
          exact ih (qtStep qs l) (kvStep ks l)
            (by rw [hqe, hke]) (by rw [hqo, hko, ho]) (by rw [hqe]; exact hrest)

/-- Witness for C10 on a concrete complex-free notebook: both loops produce
the same outcomes and the same final environment. -/
theorem c10_witness :
    (qtRunFrom initQt ["a=2", "a+1"]).outcomes =
      (kvRunFrom initKv ["a=2", "a+1"]).outcomes ∧
    (qtRunFrom initQt ["a=2", "a+1"]).env = (kvRunFrom initKv ["a=2", "a+1"]).env :=
  c10_loops_agree_without_complex ["a=2", "a+1"] initQt initKv rfl rfl (by decide)

end BeeCalc
